import Mathlib

/-!
# Shallow embedding of the go-atlassian Jira client slice

This file embeds the Go sources of the repository slice (the v2
`FilterShareService`, `ProjectVersionService`, `IssueMetadataService` and the
v3 `WatcherService`) as executable Lean definitions and proves properties of
the service methods: pre-flight validation, endpoint construction,
query-string encoding (Go's `net/url.Values.Encode`), and JSON payload
serialization (Go's `encoding/json` with `omitempty`).

Each service method is translated as a pure function from its inputs, plus the
behaviour of the single HTTP call it may perform, to the tuple of values the
Go function returns together with the trace of requests it sent.
-/

namespace GoAtlassian

/-! ## Go string helpers -/

/-- The UTF-8 bytes of one character, as natural numbers below 256.
Mirrors how Go iterates over the raw bytes of a string. -/
def utf8Bytes (c : Char) : List Nat :=
  let n := c.toNat
  if n < 128 then [n]
  else if n < 2048 then [192 + n / 64, 128 + n % 64]
  else if n < 65536 then [224 + n / 4096, 128 + (n / 64) % 64, 128 + n % 64]
  else [240 + n / 262144, 128 + (n / 4096) % 64, 128 + (n / 64) % 64, 128 + n % 64]

/-- Upper-case hexadecimal digit, as used by Go's `net/url` percent-escaping. -/
def hexDigitUpper (n : Nat) : Char :=
  if n < 10 then Char.ofNat (48 + n) else Char.ofNat (55 + n)

/-- Lower-case hexadecimal digit, as used by Go's `encoding/json` in `\u00xx`
control-character escapes. -/
def hexDigitLower (n : Nat) : Char :=
  if n < 10 then Char.ofNat (48 + n) else Char.ofNat (87 + n)

/-- Whether Go's `url.QueryEscape` leaves the byte unescaped: ASCII letters,
digits, and the marks `-` `_` `.` `~`. -/
def queryByteUnescaped (b : Nat) : Bool :=
  (65 ≤ b && b ≤ 90) || (97 ≤ b && b ≤ 122) || (48 ≤ b && b ≤ 57) ||
  b == 45 || b == 95 || b == 46 || b == 126

/-- Escape one byte the way Go's `url.QueryEscape` does: space becomes `+`,
unreserved bytes stay, everything else becomes `%XX`. -/
def queryEscapeByte (b : Nat) : String :=
  if b == 32 then "+"
  else if queryByteUnescaped b then String.singleton (Char.ofNat b)
  else "%" ++ String.singleton (hexDigitUpper (b / 16 % 16)) ++
    String.singleton (hexDigitUpper (b % 16))

/-- Go's `url.QueryEscape`, applied byte-wise over the UTF-8 encoding. -/
def queryEscape (s : String) : String :=
  String.join ((s.data.flatMap utf8Bytes).map queryEscapeByte)

/-- The string `sub` occurs as a contiguous substring of `s`. -/
def strContains (s sub : String) : Prop :=
  sub.data <:+: s.data

instance (s sub : String) : Decidable (strContains s sub) :=
  inferInstanceAs (Decidable (sub.data <:+: s.data))

/-! ## Go `net/url.Values`

`url.Values` is modelled as the insertion-ordered list of key/value pairs
that `Add` produced. `Encode` sorts the pairs by key (Go sorts the key set
and then emits each key's values in insertion order; a stable insertion sort
by strictly-smaller key produces the same sequence) and percent-escapes both
sides. -/

/-- Lexicographic comparison of character lists by code point. Since UTF-8
preserves code-point order, this is exactly Go's byte-wise `<` on strings. -/
def charListLt : List Char → List Char → Bool
  | [], [] => false
  | [], _ :: _ => true
  | _ :: _, [] => false
  | a :: as, b :: bs =>
    if a.toNat < b.toNat then true
    else if b.toNat < a.toNat then false
    else charListLt as bs

/-- Go's `<` on strings (byte-wise lexicographic). -/
def strLt (a b : String) : Bool :=
  charListLt a.data b.data

abbrev Values := List (String × String)

namespace Values

/-- `url.Values.Add`: append the key/value pair. -/
def add (vs : Values) (key value : String) : Values :=
  vs ++ [(key, value)]

/-- The keys present in the value set, in insertion order. -/
def keys (vs : Values) : List String :=
  vs.map Prod.fst

/-- Stable insertion of one pair into a key-sorted pair list. -/
def insertSorted (p : String × String) : List (String × String) → List (String × String)
  | [] => [p]
  | q :: qs => if strLt p.1 q.1 then p :: q :: qs else q :: insertSorted p qs

/-- Stable sort of the pairs by key, mirroring `url.Values.Encode`'s
sorted-key iteration. -/
def sortPairs : List (String × String) → List (String × String)
  | [] => []
  | p :: ps => insertSorted p (sortPairs ps)

/-- Go's `url.Values.Encode`: `k1=v1&k2=v2&...` with keys in sorted order and
both keys and values query-escaped. -/
def encode (vs : Values) : String :=
  String.intercalate "&"
    ((sortPairs vs).map (fun p => queryEscape p.1 ++ "=" ++ queryEscape p.2))

end Values

/-- Go's `strconv.Itoa` (also `fmt.Sprintf` with the `%v` verb on an
integer): decimal notation with a leading minus sign when negative. -/
def Itoa (n : Int) : String :=
  toString n

/-! ## Go `encoding/json` string serialization -/

/-- `encoding/json` escaping of one character inside a JSON string literal:
quote, backslash, the named control escapes, `\u00XX` for other control
characters, and the HTML-safe escapes for `<`, `>`, `&` and U+2028/U+2029. -/
def jsonEscapeChar (c : Char) : String :=
  if c = '"' then "\\\""
  else if c = '\\' then "\\\\"
  else if c = '\n' then "\\n"
  else if c = '\r' then "\\r"
  else if c = '\t' then "\\t"
  else if c = '<' then "\\u003c"
  else if c = '>' then "\\u003e"
  else if c = '&' then "\\u0026"
  else if c.toNat = 8232 then "\\u2028"
  else if c.toNat = 8233 then "\\u2029"
  else if c.toNat < 32 then
    "\\u00" ++ String.singleton (hexDigitLower (c.toNat / 16)) ++
      String.singleton (hexDigitLower (c.toNat % 16))
  else String.singleton c

/-- A JSON string literal for `s`, with `encoding/json` escaping. -/
def jsonQuote (s : String) : String :=
  "\"" ++ String.join (s.data.map jsonEscapeChar) ++ "\""

/-- A JSON object built from an ordered list of already-serialized
`name : value` members. -/
def jsonObject (members : List (String × String)) : String :=
  "\x7b" ++
    String.intercalate ","
      (members.map (fun kv => jsonQuote kv.1 ++ ":" ++ kv.2)) ++
  "\x7d"

/-! ## Errors

The typed error values the methods return. The sentinel errors
(`ErrNoProjectIDError`, `ErrNoVersionIDError`, `ErrNoIssueKeyOrIDError`) live
in the `models` package; the scope validation error is built with
`fmt.Errorf` in `SetScope`; `transport` stands for any error produced by the
HTTP layer or the JSON decode of a response. -/
inductive ClientError
  | noProjectID
  | noVersionID
  | noIssueKeyOrID
  | invalidScope (validValues : String)
  | nilPayload
  | transport (msg : String)
  deriving DecidableEq, Repr

/-- An HTTP request as built by the client: method, endpoint (path plus
query string), optional serialized JSON body, and headers in set order. -/
structure Request where
  method : String
  endpoint : String
  body : Option String
  headers : List (String × String)
  deriving DecidableEq, Repr

/-- `Request.Header.Set`. -/
def Request.setHeader (r : Request) (key value : String) : Request :=
  { r with headers := r.headers ++ [(key, value)] }

/-- Modelled from the spec: the response envelope (`ResponseScheme` in the v2
package, `Response` in the v3 `jira` package, neither of which is under
`src/`) — "status code, raw body bytes, and echo of the endpoint invoked". -/
structure ResponseScheme where
  code : Int
  bytes : String
  endpoint : String
  deriving DecidableEq, Repr

/-- Modelled from the spec: the outcome of the one HTTP call a service method
performs (the bodies of `Client.newRequest`, `Client.call` and `Client.Do`
are not under `src/`). `response` and `err` are what `call`/`Do` return: the
envelope and the error, `none` when the round trip (and any decode) succeeds,
e.g. on a 2xx response. `decoded` is the value that a JSON decode of the
response body into a target of type `α` would produce (`none` when the body
does not decode); `call` stores it into whatever variable the caller passed
as the decode target. -/
structure CallBehavior (α : Type) where
  response : Option ResponseScheme
  err : Option ClientError
  decoded : Option α
  deriving DecidableEq, Repr

/-- Modelled from the spec: `Client.newRequest` "constructs a request object
merging default headers with caller-supplied ones" against the configured
host; only the parts the properties depend on (method, endpoint, body,
per-request headers) are represented. -/
def newRequest (method endpoint : String) (body : Option String) : Request :=
  { method := method, endpoint := endpoint, body := body, headers := [] }

/-- Everything a service method returns, together with the trace of the HTTP
requests it sent (in order). `result` is the method's typed result value,
`response` the envelope, `err` the error. -/
structure Outcome (ρ : Type) where
  result : ρ
  response : Option ResponseScheme
  err : Option ClientError
  trace : List Request
  deriving DecidableEq, Repr

/-- Modelled from the spec: `transformStructToReader` serializes a payload
structure to its JSON (the serializer for the structure is passed in); a nil
payload yields an error instead of a body. -/
def transformStructToReader (marshal : α → String) : Option α → Except ClientError String
  | none => .error .nilPayload
  | some payload => .ok (marshal payload)

/-! ## Domain schemes -/

/-- `ShareFilterScopeScheme` with its one field, json tag `scope`
(no `omitempty`). -/
structure ShareFilterScopeScheme where
  Scope : String
  deriving DecidableEq, Repr

/-- `encoding/json.Marshal` of a `ShareFilterScopeScheme`: the `scope` member
is always emitted. -/
def ShareFilterScopeScheme.marshal (s : ShareFilterScopeScheme) : String :=
  jsonObject [("scope", jsonQuote s.Scope)]

/-- `PermissionFilterPayloadScheme` with json tags `type`, `projectId`,
`groupname`, `projectRoleId`, all `omitempty`. The Go field `Type` is spelled
`Type_` because `Type` is reserved in Lean. -/
structure PermissionFilterPayloadScheme where
  Type_ : String := ""
  ProjectID : String := ""
  GroupName : String := ""
  ProjectRoleID : String := ""
  deriving DecidableEq, Repr

/-- `encoding/json.Marshal` of a `PermissionFilterPayloadScheme`: each member
is emitted, in field order, only when the string is non-empty (`omitempty`). -/
def PermissionFilterPayloadScheme.marshal (p : PermissionFilterPayloadScheme) : String :=
  jsonObject
    ((if p.Type_ ≠ "" then [("type", jsonQuote p.Type_)] else []) ++
     (if p.ProjectID ≠ "" then [("projectId", jsonQuote p.ProjectID)] else []) ++
     (if p.GroupName ≠ "" then [("groupname", jsonQuote p.GroupName)] else []) ++
     (if p.ProjectRoleID ≠ "" then [("projectRoleId", jsonQuote p.ProjectRoleID)] else []))

/-- Modelled from the spec: `models.SharePermissionScheme` (the `models`
package is not under `src/`) — "a rule granting visibility of a filter to a
group, project, or globally". Its field contents play no role in the
properties proved here. -/
structure SharePermissionScheme where
  ID : Int := 0
  Type_ : String := ""
  deriving DecidableEq, Repr

/-- Modelled from the spec: `models.VersionScheme` (not under `src/`), the
typed shape of one project version. Field contents play no role here. -/
structure VersionScheme where
  ID : String := ""
  Name : String := ""
  deriving DecidableEq, Repr

/-- Modelled from the spec: `models.VersionPageScheme` (not under `src/`),
one page of a paginated version listing. -/
structure VersionPageScheme where
  Values : List VersionScheme := []
  deriving DecidableEq, Repr

/-- `models.VersionGetsOptions` (not under `src/`): the optional search
parameters, with the fields `Search` reads at lines 241–255 of the source. -/
structure VersionGetsOptions where
  Expand : List String := []
  Query : String := ""
  Status : String := ""
  OrderBy : String := ""
  deriving DecidableEq, Repr

/-- Modelled from the spec: `models.VersionPayloadScheme` (not under `src/`),
the create/update version payload. Field contents play no role here. -/
structure VersionPayloadScheme where
  Name : String := ""
  deriving DecidableEq, Repr

/-- Modelled from the spec: `models.VersionIssueCountsScheme`
(not under `src/`). Field contents play no role here. -/
structure VersionIssueCountsScheme where
  IssuesFixedCount : Int := 0
  deriving DecidableEq, Repr

/-- Modelled from the spec: `models.VersionUnresolvedIssuesCountScheme`
(not under `src/`). Field contents play no role here. -/
structure VersionUnresolvedIssuesCountScheme where
  IssuesUnresolvedCount : Int := 0
  deriving DecidableEq, Repr

/-- One entry of `IssueWatcherScheme.Watchers` (anonymous struct in the
source). -/
structure WatcherEntry where
  Self : String := ""
  AccountID : String := ""
  DisplayName : String := ""
  Active : Bool := false
  deriving DecidableEq, Repr

/-- `IssueWatcherScheme` from the v3 `jira` package. -/
structure IssueWatcherScheme where
  Self : String := ""
  IsWatching : Bool := false
  WatchCount : Int := 0
  Watchers : List WatcherEntry := []
  deriving DecidableEq, Repr

/-! ## FilterShareService -/

/-- `FilterShareService.Scope`: GET `rest/api/2/filter/defaultShareScope`.
The source passes `&response`, not `&result`, as the decode target of
`client.call` (line 30), so the `result` variable is never assigned anywhere
in the function and is returned as declared: nil. -/
def FilterShareService.Scope (call : CallBehavior ShareFilterScopeScheme) :
    Outcome (Option ShareFilterScopeScheme) :=
  let endpoint := "rest/api/2/filter/defaultShareScope"
  let request := newRequest "GET" endpoint none
  let request := request.setHeader "Accept" "application/json"
  { result := none, response := call.response, err := call.err,
    trace := [request] }

/-- `FilterShareService.SetScope`: validate the scope against the fixed list,
then PUT `rest/api/2/filter/defaultShareScope` with the serialized payload.
The source discards `transformStructToReader`'s error (`payloadAsReader, _ :=`)
and the payload is the non-nil local struct, so the body is its JSON. -/
def FilterShareService.SetScope (call : CallBehavior Unit) (scope : String) :
    Outcome Unit :=
  let validScopeValuesAsList := ["GLOBAL", "AUTHENTICATED", "PRIVATE"]
  let isValid := validScopeValuesAsList.contains scope
  if !isValid then
    { result := (), response := none,
      err := some (.invalidScope (String.intercalate "," validScopeValuesAsList)),
      trace := [] }
  else
    let payload : ShareFilterScopeScheme := { Scope := scope }
    let payloadAsReader := ShareFilterScopeScheme.marshal payload
    let endpoint := "rest/api/2/filter/defaultShareScope"
    let request := newRequest "PUT" endpoint (some payloadAsReader)
    let request := request.setHeader "Accept" "application/json"
    let request := request.setHeader "Content-Type" "application/json"
    { result := (), response := call.response, err := call.err,
      trace := [request] }

/-- `FilterShareService.Gets`: GET `rest/api/2/filter/{filterID}/permission`,
decoding into `result`. -/
def FilterShareService.Gets (call : CallBehavior (List SharePermissionScheme))
    (filterID : Int) : Outcome (Option (List SharePermissionScheme)) :=
  let endpoint := "rest/api/2/filter/" ++ Itoa filterID ++ "/permission"
  let request := newRequest "GET" endpoint none
  let request := request.setHeader "Accept" "application/json"
  { result := call.decoded, response := call.response, err := call.err,
    trace := [request] }

/-- `FilterShareService.Add`: serialize the payload (a nil payload fails
before any request), then POST `rest/api/2/filter/{filterID}/permission`. -/
def FilterShareService.Add (call : CallBehavior (List SharePermissionScheme))
    (filterID : Int) (payload : Option PermissionFilterPayloadScheme) :
    Outcome (Option (List SharePermissionScheme)) :=
  match transformStructToReader PermissionFilterPayloadScheme.marshal payload with
  | .error e => { result := none, response := none, err := some e, trace := [] }
  | .ok payloadAsReader =>
    let endpoint := "rest/api/2/filter/" ++ Itoa filterID ++ "/permission"
    let request := newRequest "POST" endpoint (some payloadAsReader)
    let request := request.setHeader "Accept" "application/json"
    let request := request.setHeader "Content-Type" "application/json"
    { result := call.decoded, response := call.response, err := call.err,
      trace := [request] }

/-- `FilterShareService.Get`: GET
`rest/api/2/filter/{filterID}/permission/{permissionID}` (the source sets no
headers on this request), decoding into `result`. -/
def FilterShareService.Get (call : CallBehavior SharePermissionScheme)
    (filterID permissionID : Int) : Outcome (Option SharePermissionScheme) :=
  let endpoint :=
    "rest/api/2/filter/" ++ Itoa filterID ++ "/permission/" ++ Itoa permissionID
  let request := newRequest "GET" endpoint none
  { result := call.decoded, response := call.response, err := call.err,
    trace := [request] }

/-- `FilterShareService.Delete`: DELETE
`rest/api/2/filter/{filterID}/permission/{permissionID}` (no headers, nil
decode target). -/
def FilterShareService.Delete (call : CallBehavior Unit)
    (filterID permissionID : Int) : Outcome Unit :=
  let endpoint :=
    "rest/api/2/filter/" ++ Itoa filterID ++ "/permission/" ++ Itoa permissionID
  let request := newRequest "DELETE" endpoint none
  { result := (), response := call.response, err := call.err,
    trace := [request] }

/-! ## ProjectVersionService -/

/-- `ProjectVersionService.Gets`: empty project key fails with
`ErrNoProjectIDError`, otherwise GET
`rest/api/2/project/{projectKeyOrID}/versions`. -/
def ProjectVersionService.Gets (call : CallBehavior (List VersionScheme))
    (projectKeyOrID : String) : Outcome (Option (List VersionScheme)) :=
  if projectKeyOrID.length = 0 then
    { result := none, response := none, err := some .noProjectID, trace := [] }
  else
    let endpoint := "rest/api/2/project/" ++ projectKeyOrID ++ "/versions"
    let request := newRequest "GET" endpoint none
    let request := request.setHeader "Accept" "application/json"
    { result := call.decoded, response := call.response, err := call.err,
      trace := [request] }

/-- The `url.Values` that `ProjectVersionService.Search` builds (source lines
235–257): `startAt` and `maxResults` always, then each option field only when
non-empty, in source order. -/
def ProjectVersionService.searchParams (options : Option VersionGetsOptions)
    (startAt maxResults : Int) : Values :=
  let params : Values := []
  let params := params.add "startAt" (Itoa startAt)
  let params := params.add "maxResults" (Itoa maxResults)
  match options with
  | none => params
  | some o =>
    let params :=
      if o.Expand.length ≠ 0 then params.add "expand" (String.intercalate "," o.Expand)
      else params
    let params := if o.Query.length ≠ 0 then params.add "query" o.Query else params
    let params := if o.Status.length ≠ 0 then params.add "status" o.Status else params
    if o.OrderBy.length ≠ 0 then params.add "orderBy" o.OrderBy else params

/-- `ProjectVersionService.Search`: empty project key fails with
`ErrNoProjectIDError`, otherwise GET
`rest/api/2/project/{projectKeyOrID}/version?{params.Encode()}`. -/
def ProjectVersionService.Search (call : CallBehavior VersionPageScheme)
    (projectKeyOrID : String) (options : Option VersionGetsOptions)
    (startAt maxResults : Int) : Outcome (Option VersionPageScheme) :=
  if projectKeyOrID.length = 0 then
    { result := none, response := none, err := some .noProjectID, trace := [] }
  else
    let params := ProjectVersionService.searchParams options startAt maxResults
    let endpoint :=
      "rest/api/2/project/" ++ projectKeyOrID ++ "/version?" ++ params.encode
    let request := newRequest "GET" endpoint none
    let request := request.setHeader "Accept" "application/json"
    { result := call.decoded, response := call.response, err := call.err,
      trace := [request] }

/-- The `url.Values` that `ProjectVersionService.Get` builds (source lines
315–318): the `expand` parameter only when the list is non-empty. -/
def ProjectVersionService.getParams (expand : List String) : Values :=
  let params : Values := []
  if expand.length ≠ 0 then params.add "expand" (String.intercalate "," expand)
  else params

/-- `ProjectVersionService.Get`: empty version ID fails with
`ErrNoVersionIDError`; the `expand` parameter is added only when the list is
non-empty, and the `?` suffix only when the encoded params are non-empty. -/
def ProjectVersionService.Get (call : CallBehavior VersionScheme)
    (versionID : String) (expand : List String) : Outcome (Option VersionScheme) :=
  if versionID.length = 0 then
    { result := none, response := none, err := some .noVersionID, trace := [] }
  else
    let params := ProjectVersionService.getParams expand
    let endpoint := "rest/api/2/version/" ++ versionID ++
      (if params.encode ≠ "" then "?" ++ params.encode else "")
    let request := newRequest "GET" endpoint none
    let request := request.setHeader "Accept" "application/json"
    { result := call.decoded, response := call.response, err := call.err,
      trace := [request] }

/-- `ProjectVersionService.Update`: empty version ID fails with
`ErrNoVersionIDError`; a nil payload fails serialization; otherwise PUT
`rest/api/2/version/{versionID}`. -/
def ProjectVersionService.Update (call : CallBehavior VersionScheme)
    (versionID : String) (payload : Option VersionPayloadScheme) :
    Outcome (Option VersionScheme) :=
  if versionID.length = 0 then
    { result := none, response := none, err := some .noVersionID, trace := [] }
  else
    let endpoint := "rest/api/2/version/" ++ versionID
    match transformStructToReader (fun _ => jsonObject []) payload with
    | .error e => { result := none, response := none, err := some e, trace := [] }
    | .ok payloadAsReader =>
      let request := newRequest "PUT" endpoint (some payloadAsReader)
      let request := request.setHeader "Accept" "application/json"
      let request := request.setHeader "Content-Type" "application/json"
      { result := call.decoded, response := call.response, err := call.err,
        trace := [request] }

/-- `ProjectVersionService.Merge`: either empty ID fails with
`ErrNoVersionIDError` before any request; otherwise PUT
`rest/api/2/version/{versionID}/mergeto/{versionMoveIssuesTo}`. -/
def ProjectVersionService.Merge (call : CallBehavior Unit)
    (versionID versionMoveIssuesTo : String) : Outcome Unit :=
  if versionID.length = 0 then
    { result := (), response := none, err := some .noVersionID, trace := [] }
  else if versionMoveIssuesTo.length = 0 then
    { result := (), response := none, err := some .noVersionID, trace := [] }
  else
    let endpoint :=
      "rest/api/2/version/" ++ versionID ++ "/mergeto/" ++ versionMoveIssuesTo
    let request := newRequest "PUT" endpoint none
    let request := request.setHeader "Accept" "application/json"
    { result := (), response := call.response, err := call.err,
      trace := [request] }

/-- `ProjectVersionService.RelatedIssueCounts`: empty version ID fails with
`ErrNoVersionIDError`; otherwise GET
`rest/api/2/version/{versionID}/relatedIssueCounts`. -/
def ProjectVersionService.RelatedIssueCounts (call : CallBehavior VersionIssueCountsScheme)
    (versionID : String) : Outcome (Option VersionIssueCountsScheme) :=
  if versionID.length = 0 then
    { result := none, response := none, err := some .noVersionID, trace := [] }
  else
    let endpoint := "rest/api/2/version/" ++ versionID ++ "/relatedIssueCounts"
    let request := newRequest "GET" endpoint none
    let request := request.setHeader "Accept" "application/json"
    { result := call.decoded, response := call.response, err := call.err,
      trace := [request] }

/-- `ProjectVersionService.UnresolvedIssueCount`: empty version ID fails with
`ErrNoVersionIDError`; otherwise GET
`rest/api/2/version/{versionID}/unresolvedIssueCount`. -/
def ProjectVersionService.UnresolvedIssueCount
    (call : CallBehavior VersionUnresolvedIssuesCountScheme) (versionID : String) :
    Outcome (Option VersionUnresolvedIssuesCountScheme) :=
  if versionID.length = 0 then
    { result := none, response := none, err := some .noVersionID, trace := [] }
  else
    let endpoint := "rest/api/2/version/" ++ versionID ++ "/unresolvedIssueCount"
    let request := newRequest "GET" endpoint none
    let request := request.setHeader "Accept" "application/json"
    { result := call.decoded, response := call.response, err := call.err,
      trace := [request] }

/-! ## IssueMetadataService -/

/-- The `url.Values` that `IssueMetadataService.Get` builds: each override
flag contributes a `"true"` entry only when the boolean is true, with
`overrideEditableFlag` tested first as in the source. -/
def IssueMetadataService.getParams (overrideScreenSecurity overrideEditableFlag : Bool) :
    Values :=
  let params : Values := []
  let params := if overrideEditableFlag then params.add "overrideEditableFlag" "true" else params
  if overrideScreenSecurity then params.add "overrideScreenSecurity" "true" else params

/-- `IssueMetadataService.Get`: empty issue key fails with
`ErrNoIssueKeyOrIDError` (returning the zero `gjson.Result`, modelled as the
empty string, and a nil response); otherwise GET
`rest/api/2/issue/{issueKeyOrID}/editmeta` with the `?` suffix only when the
encoded params are non-empty. On success the result is the parsed response
body (modelled as the raw body string). -/
def IssueMetadataService.Get (call : CallBehavior Unit) (issueKeyOrID : String)
    (overrideScreenSecurity overrideEditableFlag : Bool) : Outcome String :=
  if issueKeyOrID.length = 0 then
    { result := "", response := none, err := some .noIssueKeyOrID, trace := [] }
  else
    let params := IssueMetadataService.getParams overrideScreenSecurity overrideEditableFlag
    let endpoint := "rest/api/2/issue/" ++ issueKeyOrID ++ "/editmeta" ++
      (if params.encode ≠ "" then "?" ++ params.encode else "")
    let request := newRequest "GET" endpoint none
    let request := request.setHeader "Accept" "application/json"
    match call.err with
    | some e => { result := "", response := call.response, err := some e,
                  trace := [request] }
    | none =>
      { result := (match call.response with | some r => r.bytes | none => ""),
        response := call.response, err := none, trace := [request] }

/-! ## WatcherService (v3 `jira` package)

These methods perform no validation of `issueKeyOrID`: the endpoint is built
and the request sent unconditionally. -/

/-- `WatcherService.Get`: GET `rest/api/3/issue/{issueKeyOrID}/watchers`,
then `json.Unmarshal` of the body into a fresh `IssueWatcherScheme`. -/
def WatcherService.Get (call : CallBehavior IssueWatcherScheme)
    (issueKeyOrID : String) : Outcome (Option IssueWatcherScheme) :=
  let endpoint := "rest/api/3/issue/" ++ issueKeyOrID ++ "/watchers"
  let request := newRequest "GET" endpoint none
  let request := request.setHeader "Content-Type" "application/json"
  match call.err with
  | some e => { result := none, response := call.response, err := some e,
                trace := [request] }
  | none => { result := call.decoded, response := call.response, err := none,
              trace := [request] }

/-- `WatcherService.Add`: POST `rest/api/3/issue/{issueKeyOrID}/watchers`. -/
def WatcherService.Add (call : CallBehavior Unit) (issueKeyOrID : String) :
    Outcome Unit :=
  let endpoint := "rest/api/3/issue/" ++ issueKeyOrID ++ "/watchers"
  let request := newRequest "POST" endpoint none
  let request := request.setHeader "Content-Type" "application/json"
  { result := (), response := call.response, err := call.err,
    trace := [request] }

/-- `WatcherService.Delete`: DELETE `rest/api/3/issue/{issueKeyOrID}/watchers`. -/
def WatcherService.Delete (call : CallBehavior Unit) (issueKeyOrID : String) :
    Outcome Unit :=
  let endpoint := "rest/api/3/issue/" ++ issueKeyOrID ++ "/watchers"
  let request := newRequest "DELETE" endpoint none
  let request := request.setHeader "Content-Type" "application/json"
  { result := (), response := call.response, err := call.err,
    trace := [request] }

/-! ## Sample behaviours and helper lemmas -/

/-- A sample successful call outcome: 2xx response, no error, with the given
decoded value. -/
def okCall (decoded : Option α) : CallBehavior α :=
  { response := some { code := 200, bytes := "[]", endpoint := "endpoint" },
    err := none, decoded := decoded }

/-- Go's `len(s) == 0` test on a string is the empty-string test. -/
theorem string_length_eq_zero_iff (s : String) : s.length = 0 ↔ s = "" := by
  constructor
  · intro h
    cases s with
    | mk data =>
      cases data with
      | nil => rfl
      | cons a l => simp [String.length] at h
  · intro h
    subst h
    rfl

/-- `Nat.digitChar` of a digit is a decimal digit character. -/
theorem digitChar_mem (n : Nat) (h : n < 10) : Nat.digitChar n ∈ "0123456789".data := by
  interval_cases n <;> decide

/-- Every character `Nat.toDigitsCore` emits in base 10 is a decimal digit. -/
theorem toDigitsCore_chars (f : Nat) : ∀ (n : Nat) (acc : List Char),
    (∀ c ∈ acc, c ∈ "0123456789".data) →
    ∀ c ∈ Nat.toDigitsCore 10 f n acc, c ∈ "0123456789".data := by
  induction f with
  | zero => intro n acc hacc; simpa [Nat.toDigitsCore] using hacc
  | succ f ih =>
    intro n acc hacc c hc
    simp only [Nat.toDigitsCore] at hc
    by_cases hdiv : n / 10 = 0
    · simp only [hdiv, if_pos] at hc
      rcases List.mem_cons.mp hc with h | h
      · exact h ▸ digitChar_mem _ (Nat.mod_lt _ (by decide))
      · exact hacc _ h
    · simp only [hdiv, if_neg, ite_false] at hc
      exact ih (n / 10) _ (by
        intro d hd
        rcases List.mem_cons.mp hd with h | h
        · exact h ▸ digitChar_mem _ (Nat.mod_lt _ (by decide))
        · exact hacc _ h) c hc

/-- Every character of `Nat.repr` is a decimal digit. -/
theorem natRepr_chars (n : Nat) : ∀ c ∈ (Nat.repr n).data, c ∈ "0123456789".data := by
  intro c hc
  simp only [Nat.repr, Nat.toDigits, List.asString] at hc
  exact toDigitsCore_chars (n + 1) n [] (by simp) c hc

/-- Every character of `Itoa` is a minus sign or a decimal digit. -/
theorem Itoa_chars (n : Int) : ∀ c ∈ (Itoa n).data, c ∈ "-0123456789".data := by
  intro c hc
  cases n with
  | ofNat m =>
    have h := natRepr_chars m c (by simpa [Itoa, toString, Int.repr] using hc)
    simp only [String.data] at h ⊢
    exact List.mem_cons_of_mem _ h
  | negSucc m =>
    simp only [Itoa, toString, Int.repr, String.data_append] at hc
    rcases List.mem_append.mp hc with h | h
    · simp only [String.data, List.mem_singleton] at h
      subst h
      exact List.mem_cons_self _ _
    · have h' := natRepr_chars _ c h
      simp only [String.data] at h' ⊢
      exact List.mem_cons_of_mem _ h'

/-- `Itoa` never produces a question mark. -/
theorem Itoa_no_question (n : Int) : '?' ∉ (Itoa n).data :=
  fun h => absurd (Itoa_chars n '?' h) (by decide)

/-- Concatenation of question-mark-free strings is question-mark-free. -/
theorem no_question_append (a b : String) (ha : '?' ∉ a.data) (hb : '?' ∉ b.data) :
    '?' ∉ (a ++ b).data := by
  rw [String.data_append]
  intro h
  rcases List.mem_append.mp h with h | h
  · exact ha h
  · exact hb h

/-- An out-of-enum scope makes `SetScope` return the validation error with
every other return value zero and no request sent. -/
theorem setScope_invalid_eq (call : CallBehavior Unit) (scope : String)
    (h : scope ∉ ["GLOBAL", "AUTHENTICATED", "PRIVATE"]) :
    FilterShareService.SetScope call scope =
      { result := (), response := none,
        err := some (.invalidScope "GLOBAL,AUTHENTICATED,PRIVATE"), trace := [] } := by
  have hc : (["GLOBAL", "AUTHENTICATED", "PRIVATE"].contains scope) = false := by
    simpa using h
  unfold FilterShareService.SetScope
  simp only [hc]
  rfl

/-! ## Claims -/

/-- C2: every call to `FilterShareService.Scope` that returns a nil error
returns a nil typed result, because the source passes `&response` rather than
`&result` as the decode target of `client.call`, so the decoded scope value
is never stored in the typed result. -/
theorem C2_scope_nil_result (call : CallBehavior ShareFilterScopeScheme)
    (h : (FilterShareService.Scope call).err = none) :
    (FilterShareService.Scope call).result = none := rfl

/-- Witness for C2: a concrete successful call (2xx response, no error, with
a decodable scope value available) still yields a nil result. -/
theorem C2_scope_nil_result_witness :
    (FilterShareService.Scope (okCall (some { Scope := "GLOBAL" }))).err = none ∧
    (FilterShareService.Scope (okCall (some { Scope := "GLOBAL" }))).result = none :=
  ⟨rfl, C2_scope_nil_result (okCall (some { Scope := "GLOBAL" })) rfl⟩

/-- C6: serializing `PermissionFilterPayloadScheme{Type:"group",
GroupName:"eng"}` as the body of `FilterShareService.Add` produces a JSON
object containing `"groupname":"eng"` and containing neither `projectId` nor
`projectRoleId`, because empty fields are marked `omitempty`. -/
theorem C6_add_group_payload_json :
    strContains (PermissionFilterPayloadScheme.marshal { Type_ := "group", GroupName := "eng" })
      "\"groupname\":\"eng\"" ∧
    ¬ strContains (PermissionFilterPayloadScheme.marshal { Type_ := "group", GroupName := "eng" })
      "projectId" ∧
    ¬ strContains (PermissionFilterPayloadScheme.marshal { Type_ := "group", GroupName := "eng" })
      "projectRoleId" ∧
    (FilterShareService.Add (okCall none) 1
        (some { Type_ := "group", GroupName := "eng" })).trace.map Request.body =
      [some (PermissionFilterPayloadScheme.marshal { Type_ := "group", GroupName := "eng" })] :=
  ⟨by decide, by decide, by decide, rfl⟩

/-- C7: for every `filterID` and `permissionID`, `Gets` and `Add` build the
endpoint `rest/api/2/filter/{filterID}/permission`, and `Get` and `Delete`
build `rest/api/2/filter/{filterID}/permission/{permissionID}`; none of the
four endpoints carries a query string (no `?` occurs in any of them). -/
theorem C7_permission_paths (cGets cAdd : CallBehavior (List SharePermissionScheme))
    (cGet : CallBehavior SharePermissionScheme) (cDelete : CallBehavior Unit)
    (filterID permissionID : Int) (payload : PermissionFilterPayloadScheme) :
    (FilterShareService.Gets cGets filterID).trace.map Request.endpoint =
      ["rest/api/2/filter/" ++ Itoa filterID ++ "/permission"] ∧
    (FilterShareService.Add cAdd filterID (some payload)).trace.map Request.endpoint =
      ["rest/api/2/filter/" ++ Itoa filterID ++ "/permission"] ∧
    (FilterShareService.Get cGet filterID permissionID).trace.map Request.endpoint =
      ["rest/api/2/filter/" ++ Itoa filterID ++ "/permission/" ++ Itoa permissionID] ∧
    (FilterShareService.Delete cDelete filterID permissionID).trace.map Request.endpoint =
      ["rest/api/2/filter/" ++ Itoa filterID ++ "/permission/" ++ Itoa permissionID] ∧
    (∀ r ∈ (FilterShareService.Gets cGets filterID).trace, '?' ∉ r.endpoint.data) ∧
    (∀ r ∈ (FilterShareService.Add cAdd filterID (some payload)).trace, '?' ∉ r.endpoint.data) ∧
    (∀ r ∈ (FilterShareService.Get cGet filterID permissionID).trace, '?' ∉ r.endpoint.data) ∧
    (∀ r ∈ (FilterShareService.Delete cDelete filterID permissionID).trace,
      '?' ∉ r.endpoint.data) := by
  have hperm : ∀ n : Int, '?' ∉ ("rest/api/2/filter/" ++ Itoa n ++ "/permission").data := by
    intro n
    exact no_question_append _ _
      (no_question_append _ _ (by decide) (Itoa_no_question n)) (by decide)
  have hperm2 : ∀ n m : Int,
      '?' ∉ ("rest/api/2/filter/" ++ Itoa n ++ "/permission/" ++ Itoa m).data := by
    intro n m
    exact no_question_append _ _
      (no_question_append _ _
        (no_question_append _ _ (by decide) (Itoa_no_question n)) (by decide))
      (Itoa_no_question m)
  refine ⟨rfl, rfl, rfl, rfl, ?_, ?_, ?_, ?_⟩
  · intro r hr
    simp only [FilterShareService.Gets, List.mem_singleton] at hr
    subst hr
    exact hperm filterID
  · intro r hr
    simp only [FilterShareService.Add, transformStructToReader, List.mem_singleton] at hr
    subst hr
    exact hperm filterID
  · intro r hr
    simp only [FilterShareService.Get, List.mem_singleton] at hr
    subst hr
    exact hperm2 filterID permissionID
  · intro r hr
    simp only [FilterShareService.Delete, List.mem_singleton] at hr
    subst hr
    exact hperm2 filterID permissionID

/-- C8: `ProjectVersionService.Merge` with an empty `versionID` or an empty
`versionMoveIssuesTo` returns the no-version-ID error without building or
sending any request. -/
theorem C8_merge_empty_ids (call : CallBehavior Unit) (versionID versionMoveIssuesTo : String)
    (h : versionID = "" ∨ versionMoveIssuesTo = "") :
    (ProjectVersionService.Merge call versionID versionMoveIssuesTo).err = some .noVersionID ∧
    (ProjectVersionService.Merge call versionID versionMoveIssuesTo).trace = [] ∧
    (ProjectVersionService.Merge call versionID versionMoveIssuesTo).response = none := by
  rcases h with h | h
  · subst h
    exact ⟨rfl, rfl, rfl⟩
  · subst h
    by_cases hv : versionID.length = 0
    · simp [ProjectVersionService.Merge, hv]
    · simp [ProjectVersionService.Merge, hv]

/-- C4: for every scope string that is not exactly one of GLOBAL,
AUTHENTICATED, PRIVATE (lowercase variants and the empty string included),
`FilterShareService.SetScope` returns the scope-validation error and performs
no network call. -/
theorem C4_setscope_rejects_invalid (call : CallBehavior Unit) (scope : String)
    (h : scope ∉ ["GLOBAL", "AUTHENTICATED", "PRIVATE"]) :
    (FilterShareService.SetScope call scope).err =
      some (.invalidScope "GLOBAL,AUTHENTICATED,PRIVATE") ∧
    (FilterShareService.SetScope call scope).trace = [] ∧
    (FilterShareService.SetScope call scope).response = none := by
  rw [setScope_invalid_eq call scope h]
  exact ⟨rfl, rfl, rfl⟩

/-- Witness for C4: the lowercase string `"private"` is rejected with the
validation error and no request. -/
theorem C4_setscope_rejects_invalid_witness :
    ("private" ∉ ["GLOBAL", "AUTHENTICATED", "PRIVATE"]) ∧
    ((FilterShareService.SetScope (okCall none) "private").err =
       some (.invalidScope "GLOBAL,AUTHENTICATED,PRIVATE") ∧
     (FilterShareService.SetScope (okCall none) "private").trace = [] ∧
     (FilterShareService.SetScope (okCall none) "private").response = none) :=
  ⟨by decide, C4_setscope_rejects_invalid (okCall none) "private" (by decide)⟩

/-- C5: for every scope in {GLOBAL, AUTHENTICATED, PRIVATE},
`FilterShareService.SetScope` issues exactly one PUT to
`rest/api/2/filter/defaultShareScope` whose JSON body is the object with the
single pair `scope: <value>`, and returns a nil error when the call succeeds
with a 2xx response. -/
theorem C5_setscope_valid_put (call : CallBehavior Unit) (scope : String) (r : ResponseScheme)
    (hscope : scope ∈ ["GLOBAL", "AUTHENTICATED", "PRIVATE"])
    (hresp : call.response = some r) (hcode : 200 ≤ r.code ∧ r.code < 300)
    (hok : call.err = none) :
    (FilterShareService.SetScope call scope).trace =
      [{ method := "PUT", endpoint := "rest/api/2/filter/defaultShareScope",
         body := some ("\x7b\"scope\":\"" ++ scope ++ "\"\x7d"),
         headers := [("Accept", "application/json"), ("Content-Type", "application/json")] }] ∧
    (FilterShareService.SetScope call scope).err = none := by
  simp only [List.mem_cons, List.mem_singleton, List.not_mem_nil, or_false] at hscope
  rcases hscope with h | h | h <;> subst h <;> exact ⟨rfl, hok⟩

/-- Witness for C5: `"GLOBAL"` with a 200 response produces exactly the PUT
request with body `scope: GLOBAL` and a nil error. -/
theorem C5_setscope_valid_put_witness :
    ("GLOBAL" ∈ ["GLOBAL", "AUTHENTICATED", "PRIVATE"]) ∧
    ((okCall (none : Option Unit)).response =
      some { code := 200, bytes := "[]", endpoint := "endpoint" }) ∧
    (200 ≤ (200 : Int) ∧ (200 : Int) < 300) ∧
    ((okCall (none : Option Unit)).err = none) ∧
    ((FilterShareService.SetScope (okCall none) "GLOBAL").trace =
      [{ method := "PUT", endpoint := "rest/api/2/filter/defaultShareScope",
         body := some ("\x7b\"scope\":\"" ++ "GLOBAL" ++ "\"\x7d"),
         headers := [("Accept", "application/json"), ("Content-Type", "application/json")] }] ∧
     (FilterShareService.SetScope (okCall none) "GLOBAL").err = none) :=
  ⟨by decide, rfl, by decide, rfl,
    C5_setscope_valid_put (okCall none) "GLOBAL"
      { code := 200, bytes := "[]", endpoint := "endpoint" }
      (by decide) rfl (by decide) rfl⟩

/-- Witness for C8: merging with an empty `versionID` and target `"10001"`
fails with the no-version-ID error, no request, no response. -/
theorem C8_merge_empty_ids_witness :
    ("" = "" ∨ "10001" = "") ∧
    ((ProjectVersionService.Merge (okCall none) "" "10001").err = some .noVersionID ∧
     (ProjectVersionService.Merge (okCall none) "" "10001").trace = [] ∧
     (ProjectVersionService.Merge (okCall none) "" "10001").response = none) :=
  ⟨Or.inl rfl, C8_merge_empty_ids (okCall none) "" "10001" (Or.inl rfl)⟩

/-- Counterexample to C1: `WatcherService.Get` called with an empty
`issueKeyOrID` performs no precondition check — it sends a GET to the
malformed path `rest/api/3/issue//watchers` and returns no validation error;
likewise the filter-permission method `FilterShareService.Gets` with the zero
filter ID sends a GET to `rest/api/2/filter/0/permission`. -/
theorem C1_counterexample :
    (WatcherService.Get (okCall none) "").trace =
      [{ method := "GET", endpoint := "rest/api/3/issue//watchers", body := none,
         headers := [("Content-Type", "application/json")] }] ∧
    (WatcherService.Get (okCall none) "").err = none ∧
    (FilterShareService.Gets (okCall none) 0).trace =
      [{ method := "GET", endpoint := "rest/api/2/filter/0/permission", body := none,
         headers := [("Accept", "application/json")] }] ∧
    (FilterShareService.Gets (okCall none) 0).err = none :=
  ⟨rfl, rfl, rfl, rfl⟩

/-- C1 (amended): `IssueMetadataService.Get` with an empty `issueKeyOrID`
returns the typed no-issue-key error before any request is built or sent;
`WatcherService.Get`/`Add`/`Delete` and the filter-permission methods
`FilterShareService.Gets`/`Get`/`Add`/`Delete` perform no such precondition
check: with an empty issue key or zero filter/permission IDs they still build
and send the request, and their error is exactly the transport's. -/
theorem C1_amended_validation (cI : CallBehavior Unit) (oss oef : Bool)
    (cW : CallBehavior IssueWatcherScheme) (cA cD : CallBehavior Unit)
    (cP cAdd : CallBehavior (List SharePermissionScheme))
    (cG : CallBehavior SharePermissionScheme) (cDel : CallBehavior Unit)
    (payload : PermissionFilterPayloadScheme) :
    (IssueMetadataService.Get cI "" oss oef).err = some .noIssueKeyOrID ∧
    (IssueMetadataService.Get cI "" oss oef).trace = [] ∧
    (WatcherService.Get cW "").trace ≠ [] ∧
    (WatcherService.Get cW "").err = cW.err ∧
    (WatcherService.Add cA "").trace ≠ [] ∧
    (WatcherService.Add cA "").err = cA.err ∧
    (WatcherService.Delete cD "").trace ≠ [] ∧
    (WatcherService.Delete cD "").err = cD.err ∧
    (FilterShareService.Gets cP 0).trace ≠ [] ∧
    (FilterShareService.Gets cP 0).err = cP.err ∧
    (FilterShareService.Add cAdd 0 (some payload)).trace ≠ [] ∧
    (FilterShareService.Add cAdd 0 (some payload)).err = cAdd.err ∧
    (FilterShareService.Get cG 0 0).trace ≠ [] ∧
    (FilterShareService.Get cG 0 0).err = cG.err ∧
    (FilterShareService.Delete cDel 0 0).trace ≠ [] ∧
    (FilterShareService.Delete cDel 0 0).err = cDel.err := by
  refine ⟨rfl, rfl, ?_, ?_, ?_, rfl, ?_, rfl, ?_, rfl, ?_, rfl, ?_, rfl, ?_, rfl⟩
  · cases hc : cW.err <;> simp [WatcherService.Get, hc]
  · cases hc : cW.err <;> simp [WatcherService.Get, hc]
  · simp [WatcherService.Add]
  · simp [WatcherService.Delete]
  · simp [FilterShareService.Gets]
  · simp [FilterShareService.Add, transformStructToReader]
  · simp [FilterShareService.Get]
  · simp [FilterShareService.Delete]

/-- Counterexample to C3: with `projectKeyOrID = "DEMO"`, `startAt = 0`,
`maxResults = 50` and no options, the built query string is
`maxResults=50&startAt=0` (`url.Values.Encode` sorts keys), which does not
contain the substring `startAt=0&maxResults=50`. -/
theorem C3_counterexample :
    (ProjectVersionService.Search (okCall none) "DEMO" none 0 50).trace.map Request.endpoint =
      ["rest/api/2/project/DEMO/version?maxResults=50&startAt=0"] ∧
    ¬ strContains ((ProjectVersionService.searchParams none 0 50).encode)
        "startAt=0&maxResults=50" :=
  ⟨rfl, by decide⟩

/-- C3 (amended): `Search` with an empty project key fails with the
no-project-ID error and sends nothing; with a non-empty key, `startAt = 0`,
`maxResults = 50` and all options unset, the query string of the built
endpoint is `maxResults=50&startAt=0` (keys in `Encode`'s sorted order) and
contains none of the keys expand, query, status, orderBy. -/
theorem C3_amended_search_query (call : CallBehavior VersionPageScheme)
    (projectKeyOrID : String) (options : Option VersionGetsOptions)
    (hkey : projectKeyOrID ≠ "")
    (hopts : options = none ∨ options = some {}) :
    (ProjectVersionService.Search call "" options 0 50).err = some .noProjectID ∧
    (ProjectVersionService.Search call "" options 0 50).trace = [] ∧
    (ProjectVersionService.searchParams options 0 50).encode = "maxResults=50&startAt=0" ∧
    (ProjectVersionService.Search call projectKeyOrID options 0 50).trace.map Request.endpoint =
      ["rest/api/2/project/" ++ projectKeyOrID ++ "/version?maxResults=50&startAt=0"] ∧
    strContains ((ProjectVersionService.searchParams options 0 50).encode)
      "maxResults=50&startAt=0" ∧
    ¬ strContains ((ProjectVersionService.searchParams options 0 50).encode) "expand" ∧
    ¬ strContains ((ProjectVersionService.searchParams options 0 50).encode) "query" ∧
    ¬ strContains ((ProjectVersionService.searchParams options 0 50).encode) "status" ∧
    ¬ strContains ((ProjectVersionService.searchParams options 0 50).encode) "orderBy" := by
  have hlen : ¬ projectKeyOrID.length = 0 :=
    fun hl => hkey ((string_length_eq_zero_iff _).mp hl)
  have henc : (ProjectVersionService.searchParams options 0 50).encode =
      "maxResults=50&startAt=0" := by
    rcases hopts with h | h <;> subst h <;> rfl
  refine ⟨rfl, rfl, henc, ?_, ?_, ?_, ?_, ?_, ?_⟩
  · unfold ProjectVersionService.Search
    rw [if_neg hlen]
    simp only [List.map]
    rw [henc, String.append_assoc]
    rfl
  · rw [henc]; decide
  · rw [henc]; decide
  · rw [henc]; decide
  · rw [henc]; decide
  · rw [henc]; decide

/-- Witness for C3 (amended): key `"DEMO"` with no options. -/
theorem C3_amended_search_query_witness :
    ("DEMO" ≠ "") ∧
    ((none : Option VersionGetsOptions) = none ∨
      (none : Option VersionGetsOptions) = some {}) ∧
    ((ProjectVersionService.Search (okCall none) "" none 0 50).err = some .noProjectID ∧
     (ProjectVersionService.Search (okCall none) "" none 0 50).trace = [] ∧
     (ProjectVersionService.searchParams none 0 50).encode = "maxResults=50&startAt=0" ∧
     (ProjectVersionService.Search (okCall none) "DEMO" none 0 50).trace.map Request.endpoint =
       ["rest/api/2/project/" ++ "DEMO" ++ "/version?maxResults=50&startAt=0"] ∧
     strContains ((ProjectVersionService.searchParams none 0 50).encode)
       "maxResults=50&startAt=0" ∧
     ¬ strContains ((ProjectVersionService.searchParams none 0 50).encode) "expand" ∧
     ¬ strContains ((ProjectVersionService.searchParams none 0 50).encode) "query" ∧
     ¬ strContains ((ProjectVersionService.searchParams none 0 50).encode) "status" ∧
     ¬ strContains ((ProjectVersionService.searchParams none 0 50).encode) "orderBy") :=
  ⟨by decide, Or.inl rfl,
    C3_amended_search_query (okCall none) "DEMO" none (by decide) (Or.inl rfl)⟩

/-- C9: an optional query parameter appears in the `url.Values` a method
builds if and only if the caller supplied a non-empty/true value:
`IssueMetadataService.Get` adds each override flag only when the boolean is
true, `ProjectVersionService.Get` adds `expand` only when the list is
non-empty, and `ProjectVersionService.Search` adds
expand/query/status/orderBy only when the corresponding option field is
non-empty (while `startAt`/`maxResults` are always present). -/
theorem C9_optional_query_params (oss oef : Bool) (options : Option VersionGetsOptions)
    (startAt maxResults : Int) (expand : List String) :
    (("overrideEditableFlag" ∈ (IssueMetadataService.getParams oss oef).keys) ↔ oef = true) ∧
    (("overrideScreenSecurity" ∈ (IssueMetadataService.getParams oss oef).keys) ↔ oss = true) ∧
    (("expand" ∈ (ProjectVersionService.getParams expand).keys) ↔ expand ≠ []) ∧
    ("startAt" ∈ (ProjectVersionService.searchParams options startAt maxResults).keys) ∧
    ("maxResults" ∈ (ProjectVersionService.searchParams options startAt maxResults).keys) ∧
    (("expand" ∈ (ProjectVersionService.searchParams options startAt maxResults).keys) ↔
      (∃ o, options = some o ∧ o.Expand ≠ [])) ∧
    (("query" ∈ (ProjectVersionService.searchParams options startAt maxResults).keys) ↔
      (∃ o, options = some o ∧ o.Query ≠ "")) ∧
    (("status" ∈ (ProjectVersionService.searchParams options startAt maxResults).keys) ↔
      (∃ o, options = some o ∧ o.Status ≠ "")) ∧
    (("orderBy" ∈ (ProjectVersionService.searchParams options startAt maxResults).keys) ↔
      (∃ o, options = some o ∧ o.OrderBy ≠ "")) := by
  refine ⟨?_, ?_, ?_, ?_, ?_, ?_, ?_, ?_, ?_⟩
  · cases oef <;> cases oss <;>
      simp [IssueMetadataService.getParams, Values.add, Values.keys]
  · cases oef <;> cases oss <;>
      simp [IssueMetadataService.getParams, Values.add, Values.keys]
  · cases expand <;>
      simp [ProjectVersionService.getParams, Values.add, Values.keys]
  all_goals cases options with
    | none => simp [ProjectVersionService.searchParams, Values.add, Values.keys]
    | some o =>
      by_cases h1 : o.Expand = [] <;> by_cases h2 : o.Query = "" <;>
        by_cases h3 : o.Status = "" <;> by_cases h4 : o.OrderBy = "" <;>
        simp [ProjectVersionService.searchParams, Values.add, Values.keys,
          List.length_eq_zero, string_length_eq_zero_iff, h1, h2, h3, h4]

/-- C10: whenever a method fails its local pre-flight validation (`SetScope`
with an out-of-enum scope, `Search`/`Gets` with an empty project key, `Merge`
with an empty version ID, `IssueMetadataService.Get` with an empty issue
key), every other return value is zero: the response envelope is nil and the
typed result is nil/empty. -/
theorem C10_validation_zero_returns (cS : CallBehavior Unit) (scope : String)
    (cSe : CallBehavior VersionPageScheme) (options : Option VersionGetsOptions)
    (startAt maxResults : Int) (cG : CallBehavior (List VersionScheme))
    (cM cI : CallBehavior Unit) (vMove : String) (oss oef : Bool)
    (hscope : scope ∉ ["GLOBAL", "AUTHENTICATED", "PRIVATE"]) :
    (FilterShareService.SetScope cS scope).response = none ∧
    (FilterShareService.SetScope cS scope).err ≠ none ∧
    (ProjectVersionService.Search cSe "" options startAt maxResults).result = none ∧
    (ProjectVersionService.Search cSe "" options startAt maxResults).response = none ∧
    (ProjectVersionService.Gets cG "").result = none ∧
    (ProjectVersionService.Gets cG "").response = none ∧
    (ProjectVersionService.Merge cM "" vMove).response = none ∧
    (IssueMetadataService.Get cI "" oss oef).result = "" ∧
    (IssueMetadataService.Get cI "" oss oef).response = none := by
  rw [setScope_invalid_eq cS scope hscope]
  exact ⟨rfl, by simp, rfl, rfl, rfl, rfl, rfl, rfl, rfl⟩

/-- Witness for C10: the out-of-enum scope `"global"` together with empty
identifiers everywhere. -/
theorem C10_validation_zero_returns_witness :
    ("global" ∉ ["GLOBAL", "AUTHENTICATED", "PRIVATE"]) ∧
    ((FilterShareService.SetScope (okCall none) "global").response = none ∧
     (FilterShareService.SetScope (okCall none) "global").err ≠ none ∧
     (ProjectVersionService.Search (okCall none) "" none 0 50).result = none ∧
     (ProjectVersionService.Search (okCall none) "" none 0 50).response = none ∧
     (ProjectVersionService.Gets (okCall none) "").result = none ∧
     (ProjectVersionService.Gets (okCall none) "").response = none ∧
     (ProjectVersionService.Merge (okCall none) "" "10001").response = none ∧
     (IssueMetadataService.Get (okCall none) "" false false).result = "" ∧
     (IssueMetadataService.Get (okCall none) "" false false).response = none) :=
  ⟨by decide,
    C10_validation_zero_returns (okCall none) "global" (okCall none) none 0 50
      (okCall none) (okCall none) (okCall none) "10001" false false (by decide)⟩

end GoAtlassian
